import Mathlib

/-!
Shallow embedding of `ncloud/resource_ncloud_load_balancer.go` from the
terraform-provider-ncloud repository, together with proofs about the
load-balancer resource lifecycle: the lookup (`getLoadBalancerInstance`),
the create-oriented convergence wait (`waitForLoadBalancerInstance`), the
delete path (`deleteLoadBalancerInstance` / `waitForDeleteLoadBalancerInstance`),
and the state projection performed by `resourceNcloudLoadBalancerRead`.

Modelling conventions:
* A remote API call result is `Except ApiError α` (Go `(α, error)`).
* The remote side seen by a wait loop is a poll sequence
  `remote : Nat → Except ApiError (List LoadBalancerInstance)`: the value the
  `GetLoadBalancerInstanceList` call would return on the k-th loop iteration
  (the loop polls once per second, so iteration k happens k seconds in).
* The `select` race between the polling goroutine and `time.After(time.Second * timeout)`
  is modelled by giving the loop `timeout` iterations of fuel: iterations
  0 .. timeout-1 complete strictly before the timer fires; if none of them
  resolves the channel, the timer wins and the `TIMEOUT` error is returned.
* Go panics (out-of-range indexing) are modelled by `Option`: `none` means the
  operation is undefined (panics) at that input.
-/

/-- A `{Code, CodeName}` pair (`common.CommonCode` in the SDK). -/
structure CommonCode where
  code : String
  codeName : String
deriving DecidableEq

/-- Error returned by an SDK call (Go `error`). -/
structure ApiError where
  message : String
deriving DecidableEq

/-- The SDK's common response envelope (only its presence matters here). -/
structure CommonResponse where
  requestId : String
deriving DecidableEq

/-- An element of `sdk.LoadBalancedServerInstance.ServerInstanceList`. -/
structure ServerInstance where
  serverInstanceNo : String
deriving DecidableEq

/-- `sdk.LoadBalancedServerInstance`: a bound instance carrying a nested
`ServerInstanceList`. -/
structure LoadBalancedServerInstance where
  serverInstanceList : List ServerInstance
deriving DecidableEq

/-- `sdk.LoadBalancerRule` (the fields read by `getLoadBalancerRuleList`). -/
structure LoadBalancerRule where
  protocolType : CommonCode
  loadBalancerPort : Int
  serverPort : Int
  l7HealthCheckPath : String
  certificateName : String
  proxyProtocolUseYn : String
deriving DecidableEq

/-- `sdk.LoadBalancerInstance` (the fields read by this resource file). -/
structure LoadBalancerInstance where
  loadBalancerInstanceNo : String
  virtualIP : String
  loadBalancerName : String
  loadBalancerAlgorithmType : CommonCode
  loadBalancerDescription : String
  createDate : String
  domainName : String
  internetLineType : CommonCode
  loadBalancerInstanceStatusName : String
  loadBalancerInstanceStatus : CommonCode
  loadBalancerInstanceOperation : CommonCode
  networkUsageType : CommonCode
  isHTTPKeepAlive : Bool
  connectionTimeout : Int
  certificateName : String
  loadBalancerRuleList : List LoadBalancerRule
  loadBalancedServerInstanceList : List LoadBalancedServerInstance
deriving DecidableEq

/-- Modelled from the spec: the process-wide delete/default timeout constant
`DefaultTimeout` is declared outside the provided source file; the spec says
the default/delete timeout class is the short one. A representative concrete
value (in seconds, i.e. poll iterations) is used. -/
def DefaultTimeout : Nat := 300

/-- Modelled from the spec: the process-wide create timeout constant
`DefaultCreateTimeout` is declared outside the provided source file; the spec
says the create-timeout class is the long one, so it exceeds `DefaultTimeout`. -/
def DefaultCreateTimeout : Nat := 3600

/-- Outcome of a wait: Go `error` with `nil` = success, an SDK error, or the
`fmt.Errorf` timeout error carrying its message. -/
inductive WaitResult where
  | ok : WaitResult
  | fail : ApiError → WaitResult
  | timeout : String → WaitResult
deriving DecidableEq

/-- The message built by `fmt.Errorf("TIMEOUT : delete load balancer instance [%s] ", id)`
(used verbatim by both wait functions, including the create-oriented one). -/
def timeoutMessage (id : String) : String :=
  "TIMEOUT : delete load balancer instance [" ++ id ++ "] "

/-- `getLoadBalancerInstance`: issues `GetLoadBalancerInstanceList` filtered by
the one ID (`resp` is that call's result) and scans the returned list for an
instance whose number equals the requested one; returns `none` (absent) without
error when no element matches. -/
def getLoadBalancerInstance (resp : Except ApiError (List LoadBalancerInstance))
    (LoadBalancerInstanceNo : String) : Except ApiError (Option LoadBalancerInstance) :=
  match resp with
  | Except.error err => Except.error err
  | Except.ok list =>
      Except.ok (list.find? (fun inst => LoadBalancerInstanceNo == inst.loadBalancerInstanceNo))

/-- The polling goroutine body of `waitForLoadBalancerInstance`: on each
iteration poll once (`remote 0` is the current iteration's list response); an
error is sent on the channel as failure; `instance == nil ||
instance.LoadBalancerInstanceStatus.Code == status` is sent as success (`nil`);
otherwise sleep one second and loop (the recursive call sees the remaining
poll sequence). `fuel` is the number of iterations that complete before the
`select` timer fires. -/
def waitPollLoop (id status : String) :
    (Nat → Except ApiError (List LoadBalancerInstance)) → Nat → WaitResult
  | _, 0 => WaitResult.timeout (timeoutMessage id)
  | remote, fuel + 1 =>
      match getLoadBalancerInstance (remote 0) id with
      | Except.error err => WaitResult.fail err
      | Except.ok none => WaitResult.ok
      | Except.ok (some inst) =>
          if inst.loadBalancerInstanceStatus.code == status then WaitResult.ok
          else waitPollLoop id status (fun n => remote (n + 1)) fuel

/-- `waitForLoadBalancerInstance conn id status timeout`: races the polling
loop against `time.After(time.Second * timeout)`. -/
def waitForLoadBalancerInstance (remote : Nat → Except ApiError (List LoadBalancerInstance))
    (id status : String) (timeout : Nat) : WaitResult :=
  waitPollLoop id status remote timeout

/-- The polling goroutine body of `waitForDeleteLoadBalancerInstance`: poll;
error is failure; `instance == nil` is success; otherwise sleep and loop. -/
def deleteWaitLoop (id : String) :
    (Nat → Except ApiError (List LoadBalancerInstance)) → Nat → WaitResult
  | _, 0 => WaitResult.timeout (timeoutMessage id)
  | remote, fuel + 1 =>
      match getLoadBalancerInstance (remote 0) id with
      | Except.error err => WaitResult.fail err
      | Except.ok none => WaitResult.ok
      | Except.ok (some _) => deleteWaitLoop id (fun n => remote (n + 1)) fuel

/-- `waitForDeleteLoadBalancerInstance conn id`: the delete-oriented wait; it
takes no timeout parameter and races its loop against
`time.After(time.Second * DefaultTimeout)`. -/
def waitForDeleteLoadBalancerInstance
    (remote : Nat → Except ApiError (List LoadBalancerInstance)) (id : String) : WaitResult :=
  deleteWaitLoop id remote DefaultTimeout

/-- `deleteLoadBalancerInstance`: issues `DeleteLoadBalancerInstances`
(`deleteResp` is its result; `Except.ok none` is a nil `*resp`, tolerated — the
code substitutes an empty `CommonResponse` for logging only), then runs the
delete-oriented convergence wait. -/
def deleteLoadBalancerInstance (deleteResp : Except ApiError (Option CommonResponse))
    (remote : Nat → Except ApiError (List LoadBalancerInstance)) (id : String) : WaitResult :=
  match deleteResp with
  | Except.error err => WaitResult.fail err
  | Except.ok _ => waitForDeleteLoadBalancerInstance remote id

/-- The instance extraction in `resourceNcloudLoadBalancerCreate`:
`&resp.LoadBalancerInstanceList[0]` — panics (`none`) when the create
response's instance list is empty. -/
def createdLoadBalancerInstance (loadBalancerInstanceList : List LoadBalancerInstance) :
    Option LoadBalancerInstance :=
  loadBalancerInstanceList.head?

/-- `getLoadBalancedServerInstanceList`: maps each bound instance to
`instance.ServerInstanceList[0].ServerInstanceNo` — the indexing panics
(`none`) when some bound instance's `ServerInstanceList` is empty. -/
def getLoadBalancedServerInstanceList :
    List LoadBalancedServerInstance → Option (List String)
  | [] => some []
  | inst :: rest => do
      let first ← inst.serverInstanceList.head?
      let tail ← getLoadBalancedServerInstanceList rest
      pure (first.serverInstanceNo :: tail)

/-- The element projected per rule by `getLoadBalancerRuleList` (the
`map[string]interface{}` it appends, with the nested `protocol_type_code` map). -/
structure LoadBalancerRuleValue where
  protocolTypeCode : CommonCode
  loadBalancerPort : Int
  serverPort : Int
  l7HealthCheckPath : String
  certificateName : String
  proxyProtocolUseYn : String
deriving DecidableEq

/-- `getLoadBalancerRuleList`: projects each `sdk.LoadBalancerRule` into the
state representation (the logging statements have no effect on the result). -/
def getLoadBalancerRuleList (lbRuleList : List LoadBalancerRule) : List LoadBalancerRuleValue :=
  lbRuleList.map fun r =>
    { protocolTypeCode := r.protocolType
      loadBalancerPort := r.loadBalancerPort
      serverPort := r.serverPort
      l7HealthCheckPath := r.l7HealthCheckPath
      certificateName := r.certificateName
      proxyProtocolUseYn := r.proxyProtocolUseYn }

/-- The Terraform state fields this resource writes (`d.Set` targets); `none`
models a field holding nil / never set. -/
structure ResourceState where
  virtualIP : Option String := none
  loadBalancerName : Option String := none
  loadBalancerAlgorithmType : Option CommonCode := none
  loadBalancerDescription : Option String := none
  createDate : Option String := none
  domainName : Option String := none
  internetLineType : Option CommonCode := none
  loadBalancerInstanceStatusName : Option String := none
  loadBalancerInstanceStatus : Option CommonCode := none
  loadBalancerInstanceOperation : Option CommonCode := none
  networkUsageType : Option CommonCode := none
  isHTTPKeepAlive : Option Bool := none
  connectionTimeout : Option Int := none
  certificateName : Option String := none
  loadBalancerRuleList : Option (List LoadBalancerRuleValue) := none
  loadBalancedServerInstanceList : Option (List String) := none
deriving DecidableEq

/-- `resourceNcloudLoadBalancerRead`: `lookup` is `getLoadBalancerInstance`'s
result for `d.Id()`. An error is returned as-is; an absent instance leaves the
state untouched; otherwise every scalar field is set, `load_balancer_rule_list`
is set only when the remote rule list is non-empty, and
`load_balanced_server_instance_list` is set in both branches (to nil when the
remote bound list is empty). The outer `Option` is the panic (`none`) that
`getLoadBalancedServerInstanceList` can raise. -/
def resourceNcloudLoadBalancerRead (lookup : Except ApiError (Option LoadBalancerInstance))
    (d : ResourceState) : Option (Except ApiError ResourceState) :=
  match lookup with
  | Except.error err => some (Except.error err)
  | Except.ok none => some (Except.ok d)
  | Except.ok (some lb) =>
      let d := { d with
        virtualIP := some lb.virtualIP
        loadBalancerName := some lb.loadBalancerName
        loadBalancerAlgorithmType := some lb.loadBalancerAlgorithmType
        loadBalancerDescription := some lb.loadBalancerDescription
        createDate := some lb.createDate
        domainName := some lb.domainName
        internetLineType := some lb.internetLineType
        loadBalancerInstanceStatusName := some lb.loadBalancerInstanceStatusName
        loadBalancerInstanceStatus := some lb.loadBalancerInstanceStatus
        loadBalancerInstanceOperation := some lb.loadBalancerInstanceOperation
        networkUsageType := some lb.networkUsageType
        isHTTPKeepAlive := some lb.isHTTPKeepAlive
        connectionTimeout := some lb.connectionTimeout
        certificateName := some lb.certificateName }
      let d := if lb.loadBalancerRuleList.length != 0
        then { d with loadBalancerRuleList := some (getLoadBalancerRuleList lb.loadBalancerRuleList) }
        else d
      if lb.loadBalancedServerInstanceList.length != 0 then
        match getLoadBalancedServerInstanceList lb.loadBalancedServerInstanceList with
        | none => none
        | some list => some (Except.ok { d with loadBalancedServerInstanceList := some list })
      else
        some (Except.ok { d with loadBalancedServerInstanceList := none })

/-- `containsSubstr s t`: `t` occurs as a contiguous substring of `s`. -/
def containsSubstr (s t : String) : Prop :=
  t.data <:+: s.data

instance (s t : String) : Decidable (containsSubstr s t) := by
  unfold containsSubstr
  infer_instance

/-! ### Concrete fixtures for counterexamples and witnesses -/

/-- A `{code, codeName}` pair with identical members, for fixtures. -/
def mkCode (c : String) : CommonCode :=
  { code := c, codeName := c }

/-- A concrete `LoadBalancerInstance` with the given number and status code. -/
def mkInstance (no stat : String) : LoadBalancerInstance :=
  { loadBalancerInstanceNo := no
    virtualIP := "10.0.0.1"
    loadBalancerName := "lb"
    loadBalancerAlgorithmType := mkCode "RR"
    loadBalancerDescription := ""
    createDate := ""
    domainName := ""
    internetLineType := mkCode "PUBLC"
    loadBalancerInstanceStatusName := ""
    loadBalancerInstanceStatus := mkCode stat
    loadBalancerInstanceOperation := mkCode "NULL"
    networkUsageType := mkCode "PBLIP"
    isHTTPKeepAlive := false
    connectionTimeout := 60
    certificateName := ""
    loadBalancerRuleList := []
    loadBalancedServerInstanceList := [] }

/-- A poll sequence that reports `lb-1` pending once and then absent. -/
def vanishingRemote : Nat → Except ApiError (List LoadBalancerInstance) :=
  fun n => if n = 0 then Except.ok [mkInstance "lb-1" "INIT"] else Except.ok []

/-- A poll sequence on which `lb-1` stays pending (`INIT`) forever. -/
def pendingRemote : Nat → Except ApiError (List LoadBalancerInstance) :=
  fun _ => Except.ok [mkInstance "lb-1" "INIT"]

/-- A poll sequence on which the listing is always empty. -/
def goneRemote : Nat → Except ApiError (List LoadBalancerInstance) :=
  fun _ => Except.ok []

/-- A poll sequence whose first poll reports `lb-1` as `USED` and whose later
polls all error: any wait that touches a later poll cannot return success. -/
def usedThenErrorRemote : Nat → Except ApiError (List LoadBalancerInstance) :=
  fun n => if n = 0 then Except.ok [mkInstance "lb-1" "USED"] else Except.error { message := "boom" }

/-- A poll sequence that reports `lb-1` twice and then an empty listing. -/
def twoThenGoneRemote : Nat → Except ApiError (List LoadBalancerInstance) :=
  fun n => if n < 2 then Except.ok [mkInstance "lb-1" "USED"] else Except.ok []

/-- A poll sequence that stays populated for the first `DefaultTimeout` polls
and becomes empty afterwards (well before `DefaultCreateTimeout`). -/
def lingeringRemote : Nat → Except ApiError (List LoadBalancerInstance) :=
  fun n => if n < DefaultTimeout then Except.ok [mkInstance "lb-1" "USED"] else Except.ok []

/-- A poll sequence whose first poll errors and whose later polls would report
absence: a retrying loop would succeed, an abort-on-error loop fails. -/
def errorRemote : Nat → Except ApiError (List LoadBalancerInstance) :=
  fun n => if n = 0 then Except.error { message := "api down" } else Except.ok []

/-- A stored state whose `load_balancer_rule_list` was previously set. -/
def c10State : ResourceState :=
  { loadBalancerRuleList := some [] }

/-- A remote instance with an empty rule list and one bound instance. -/
def c10Instance : LoadBalancerInstance :=
  { mkInstance "lb-1" "USED" with
      loadBalancedServerInstanceList := [{ serverInstanceList := [{ serverInstanceNo := "sv-1" }] }] }


/-! ### Helper lemmas about the wait loops -/

/-- If every iteration the timer allows finds the instance with a non-target
status, the create-oriented loop never resolves the channel and the timer
produces the `TIMEOUT` message. -/
theorem waitPollLoop_timeout_of_nontarget (id status : String) :
    ∀ (fuel : Nat) (remote : Nat → Except ApiError (List LoadBalancerInstance)),
      (∀ j, j < fuel → ∃ inst, getLoadBalancerInstance (remote j) id = Except.ok (some inst) ∧
        inst.loadBalancerInstanceStatus.code ≠ status) →
      waitPollLoop id status remote fuel = WaitResult.timeout (timeoutMessage id) := by
  intro fuel
  induction fuel with
  | zero => intro remote _; rfl
  | succ fuel ih =>
      intro remote h
      obtain ⟨inst, hpoll, hne⟩ := h 0 (Nat.succ_pos _)
      have hb : (inst.loadBalancerInstanceStatus.code == status) = false :=
        beq_eq_false_iff_ne.mpr hne
      simp only [waitPollLoop, hpoll, hb, Bool.false_eq_true, if_false]
      exact ih (fun n => remote (n + 1)) (fun j hj => h (j + 1) (Nat.succ_lt_succ hj))

/-- If the loop resolves with absence at iteration `k` (within fuel) after
only non-target observations, the create-oriented loop sends success. -/
theorem waitPollLoop_ok_of_absent (id status : String) :
    ∀ (fuel k : Nat) (remote : Nat → Except ApiError (List LoadBalancerInstance)),
      k < fuel →
      getLoadBalancerInstance (remote k) id = Except.ok none →
      (∀ j, j < k → ∃ inst, getLoadBalancerInstance (remote j) id = Except.ok (some inst) ∧
        inst.loadBalancerInstanceStatus.code ≠ status) →
      waitPollLoop id status remote fuel = WaitResult.ok := by
  intro fuel
  induction fuel with
  | zero => intro k remote hk _ _; exact absurd hk (Nat.not_lt_zero k)
  | succ fuel ih =>
      intro k remote hk habs hpre
      cases k with
      | zero => simp only [waitPollLoop, habs]
      | succ k =>
          obtain ⟨inst, hpoll, hne⟩ := hpre 0 (Nat.succ_pos _)
          have hb : (inst.loadBalancerInstanceStatus.code == status) = false :=
            beq_eq_false_iff_ne.mpr hne
          simp only [waitPollLoop, hpoll, hb, Bool.false_eq_true, if_false]
          exact ih k (fun n => remote (n + 1)) (Nat.lt_of_succ_lt_succ hk) habs
            (fun j hj => hpre (j + 1) (Nat.succ_lt_succ hj))

/-- If the poll errors at iteration `k` (within fuel) after only non-target
observations, the create-oriented loop sends exactly that error. -/
theorem waitPollLoop_fail_of_error (id status : String) :
    ∀ (fuel k : Nat) (remote : Nat → Except ApiError (List LoadBalancerInstance))
      (e : ApiError),
      k < fuel →
      getLoadBalancerInstance (remote k) id = Except.error e →
      (∀ j, j < k → ∃ inst, getLoadBalancerInstance (remote j) id = Except.ok (some inst) ∧
        inst.loadBalancerInstanceStatus.code ≠ status) →
      waitPollLoop id status remote fuel = WaitResult.fail e := by
  intro fuel
  induction fuel with
  | zero => intro k remote e hk _ _; exact absurd hk (Nat.not_lt_zero k)
  | succ fuel ih =>
      intro k remote e hk herr hpre
      cases k with
      | zero => simp only [waitPollLoop, herr]
      | succ k =>
          obtain ⟨inst, hpoll, hne⟩ := hpre 0 (Nat.succ_pos _)
          have hb : (inst.loadBalancerInstanceStatus.code == status) = false :=
            beq_eq_false_iff_ne.mpr hne
          simp only [waitPollLoop, hpoll, hb, Bool.false_eq_true, if_false]
          exact ih k (fun n => remote (n + 1)) e (Nat.lt_of_succ_lt_succ hk) herr
            (fun j hj => hpre (j + 1) (Nat.succ_lt_succ hj))

/-- Every timeout outcome of the create-oriented loop carries the one fixed
message built from the resource ID. -/
theorem waitPollLoop_timeout_msg (id status : String) :
    ∀ (fuel : Nat) (remote : Nat → Except ApiError (List LoadBalancerInstance)) (msg : String),
      waitPollLoop id status remote fuel = WaitResult.timeout msg →
      msg = timeoutMessage id := by
  intro fuel
  induction fuel with
  | zero =>
      intro remote msg h
      simp only [waitPollLoop] at h
      exact (WaitResult.timeout.injEq _ _ ▸ h.symm).symm ▸ rfl
  | succ fuel ih =>
      intro remote msg h
      simp only [waitPollLoop] at h
      split at h
      · simp at h
      · simp at h
      · split at h
        · simp at h
        · exact ih (fun n => remote (n + 1)) msg h

/-- If every iteration the timer allows still finds the instance, the
delete-oriented loop never resolves and the timer produces the message. -/
theorem deleteWaitLoop_timeout_of_found (id : String) :
    ∀ (fuel : Nat) (remote : Nat → Except ApiError (List LoadBalancerInstance)),
      (∀ j, j < fuel → ∃ inst, getLoadBalancerInstance (remote j) id = Except.ok (some inst)) →
      deleteWaitLoop id remote fuel = WaitResult.timeout (timeoutMessage id) := by
  intro fuel
  induction fuel with
  | zero => intro remote _; rfl
  | succ fuel ih =>
      intro remote h
      obtain ⟨inst, hpoll⟩ := h 0 (Nat.succ_pos _)
      simp only [deleteWaitLoop, hpoll]
      exact ih (fun n => remote (n + 1)) (fun j hj => h (j + 1) (Nat.succ_lt_succ hj))

/-- If the instance is reported absent at iteration `k` (within fuel) after
being found at every earlier iteration, the delete-oriented loop sends
success. -/
theorem deleteWaitLoop_ok_of_absent (id : String) :
    ∀ (fuel k : Nat) (remote : Nat → Except ApiError (List LoadBalancerInstance)),
      k < fuel →
      getLoadBalancerInstance (remote k) id = Except.ok none →
      (∀ j, j < k → ∃ inst, getLoadBalancerInstance (remote j) id = Except.ok (some inst)) →
      deleteWaitLoop id remote fuel = WaitResult.ok := by
  intro fuel
  induction fuel with
  | zero => intro k remote hk _ _; exact absurd hk (Nat.not_lt_zero k)
  | succ fuel ih =>
      intro k remote hk habs hpre
      cases k with
      | zero => simp only [deleteWaitLoop, habs]
      | succ k =>
          obtain ⟨inst, hpoll⟩ := hpre 0 (Nat.succ_pos _)
          simp only [deleteWaitLoop, hpoll]
          exact ih k (fun n => remote (n + 1)) (Nat.lt_of_succ_lt_succ hk) habs
            (fun j hj => hpre (j + 1) (Nat.succ_lt_succ hj))

/-- If the poll errors at iteration `k` (within fuel) after the instance was
found at every earlier iteration, the delete-oriented loop sends that error. -/
theorem deleteWaitLoop_fail_of_error (id : String) :
    ∀ (fuel k : Nat) (remote : Nat → Except ApiError (List LoadBalancerInstance))
      (e : ApiError),
      k < fuel →
      getLoadBalancerInstance (remote k) id = Except.error e →
      (∀ j, j < k → ∃ inst, getLoadBalancerInstance (remote j) id = Except.ok (some inst)) →
      deleteWaitLoop id remote fuel = WaitResult.fail e := by
  intro fuel
  induction fuel with
  | zero => intro k remote e hk _ _; exact absurd hk (Nat.not_lt_zero k)
  | succ fuel ih =>
      intro k remote e hk herr hpre
      cases k with
      | zero => simp only [deleteWaitLoop, herr]
      | succ k =>
          obtain ⟨inst, hpoll⟩ := hpre 0 (Nat.succ_pos _)
          simp only [deleteWaitLoop, hpoll]
          exact ih k (fun n => remote (n + 1)) e (Nat.lt_of_succ_lt_succ hk) herr
            (fun j hj => hpre (j + 1) (Nat.succ_lt_succ hj))

/-- The middle piece of a three-way concatenation is a substring. -/
theorem containsSubstr_append (pre mid suf : String) :
    containsSubstr (pre ++ mid ++ suf) mid :=
  ⟨pre.data, suf.data, by simp⟩

/-- The timeout message contains the resource ID as a substring. -/
theorem timeoutMessage_containsSubstr (id : String) :
    containsSubstr (timeoutMessage id) id :=
  containsSubstr_append "TIMEOUT : delete load balancer instance [" id "] "

/-! ### Claims -/

/-- C1, counterexample: the claim says a create-oriented wait
(`waitForLoadBalancerInstance` with target `"USED"`) must fail when the remote
object disappears before the target status is seen. On the concrete poll
sequence that reports the instance pending once and then absent, the wait
returns `nil` (success), so the claim as stated is false. -/
theorem C1_counterexample :
    waitForLoadBalancerInstance vanishingRemote "lb-1" "USED" 5 = WaitResult.ok := by
  decide

/-- C1, amended: `waitForLoadBalancerInstance` treats `instance == nil` exactly
like a target-status match — absence before the target status is observed makes
the create-oriented wait return success (`nil`), just as the delete-oriented
wait does. -/
theorem C1_create_wait_absent_is_success
    (remote : Nat → Except ApiError (List LoadBalancerInstance)) (id status : String)
    (timeout k : Nat) (hk : k < timeout)
    (habs : getLoadBalancerInstance (remote k) id = Except.ok none)
    (hpre : ∀ j, j < k → ∃ inst, getLoadBalancerInstance (remote j) id = Except.ok (some inst) ∧
      inst.loadBalancerInstanceStatus.code ≠ status) :
    waitForLoadBalancerInstance remote id status timeout = WaitResult.ok :=
  waitPollLoop_ok_of_absent id status timeout k remote hk habs hpre

/-- C1, witness: the amended statement instantiated on the vanishing poll
sequence (pending at poll 0, absent at poll 1, deadline 5). -/
theorem C1_witness :
    waitForLoadBalancerInstance vanishingRemote "lb-1" "USED" 5 = WaitResult.ok :=
  C1_create_wait_absent_is_success vanishingRemote "lb-1" "USED" 5 1 (by decide) rfl
    (fun j hj => by
      have hj0 : j = 0 := Nat.lt_one_iff.mp hj
      subst hj0
      exact ⟨mkInstance "lb-1" "INIT", rfl, by decide⟩)

/-- C2, counterexample: the claim says a timed-out wait's message contains both
the resource ID and the target status. On the poll sequence where `lb-1` stays
`INIT`, the wait for `"USED"` with deadline 3 times out, and its message does
not contain the target status `"USED"` (the fixed text only names the delete
operation). -/
theorem C2_counterexample :
    waitForLoadBalancerInstance pendingRemote "lb-1" "USED" 3 =
      WaitResult.timeout (timeoutMessage "lb-1") ∧
    ¬ containsSubstr (timeoutMessage "lb-1") "USED" := by
  constructor
  · decide
  · decide

/-- C2, amended: every wait that ends by exceeding its deadline returns the
`TIMEOUT` error whose message contains the resource ID it was polling; the
target status is not part of the message. -/
theorem C2_timeout_message_contains_id
    (remote : Nat → Except ApiError (List LoadBalancerInstance)) (id status : String)
    (timeout : Nat) (msg : String)
    (h : waitForLoadBalancerInstance remote id status timeout = WaitResult.timeout msg) :
    containsSubstr msg id := by
  have hmsg : msg = timeoutMessage id := waitPollLoop_timeout_msg id status timeout remote msg h
  rw [hmsg]
  exact timeoutMessage_containsSubstr id

/-- C2, witness: the amended statement instantiated on the forever-pending poll
sequence with deadline 3. -/
theorem C2_witness : containsSubstr (timeoutMessage "lb-1") "lb-1" :=
  C2_timeout_message_contains_id pendingRemote "lb-1" "USED" 3 (timeoutMessage "lb-1")
    (by decide)

/-- C3: when the lookup call succeeds and the returned list has no element
whose instance number equals the requested ID, `getLoadBalancerInstance`
returns absent (`none`) together with no error. -/
theorem C3_absent_is_not_an_error (list : List LoadBalancerInstance) (id : String)
    (h : ∀ inst ∈ list, id ≠ inst.loadBalancerInstanceNo) :
    getLoadBalancerInstance (Except.ok list) id = Except.ok none := by
  have hfind : list.find? (fun inst => id == inst.loadBalancerInstanceNo) = none := by
    rw [List.find?_eq_none]
    intro inst hmem
    simpa using h inst hmem
  simp [getLoadBalancerInstance, hfind]

/-- C3, witness: looking `lb-1` up in a listing that only contains `lb-9`
returns absent with no error. -/
theorem C3_witness :
    getLoadBalancerInstance (Except.ok [mkInstance "lb-9" "USED"]) "lb-1" = Except.ok none :=
  C3_absent_is_not_an_error [mkInstance "lb-9" "USED"] "lb-1" (by decide)

/-- C4, counterexample: the claim says every poll sequence whose observed
status never equals the target yields a `TimeoutError`. On the sequence whose
listing is always empty no observed status ever equals `"USED"`, yet the wait
returns `nil` (success), not a timeout. -/
theorem C4_counterexample :
    waitForLoadBalancerInstance goneRemote "lb-2" "USED" 5 = WaitResult.ok := by
  decide

/-- C4, amended: if every poll before the deadline finds the instance (no
error, not absent) with a status different from the target, the wait returns
the `TIMEOUT` error and its message contains the resource ID. -/
theorem C4_nontarget_polls_time_out
    (remote : Nat → Except ApiError (List LoadBalancerInstance)) (id status : String)
    (timeout : Nat)
    (h : ∀ k, k < timeout → ∃ inst, getLoadBalancerInstance (remote k) id = Except.ok (some inst) ∧
      inst.loadBalancerInstanceStatus.code ≠ status) :
    waitForLoadBalancerInstance remote id status timeout = WaitResult.timeout (timeoutMessage id) ∧
    containsSubstr (timeoutMessage id) id :=
  ⟨waitPollLoop_timeout_of_nontarget id status timeout remote h, timeoutMessage_containsSubstr id⟩

/-- C4, witness: the amended statement instantiated on the forever-pending poll
sequence with deadline 3. -/
theorem C4_witness :
    waitForLoadBalancerInstance pendingRemote "lb-1" "USED" 3 =
      WaitResult.timeout (timeoutMessage "lb-1") ∧
    containsSubstr (timeoutMessage "lb-1") "lb-1" :=
  C4_nontarget_polls_time_out pendingRemote "lb-1" "USED" 3
    (fun k _ => ⟨mkInstance "lb-1" "INIT", rfl, by decide⟩)

/-- C5: if the very first poll observes the target status, the wait returns
success; the poll sequence beyond index 0 is universally quantified, so no
later poll (nor the sleep separating polls) can influence the result. -/
theorem C5_first_poll_target_is_immediate_success
    (remote : Nat → Except ApiError (List LoadBalancerInstance)) (id status : String)
    (timeout : Nat) (inst : LoadBalancerInstance) (ht : 0 < timeout)
    (h0 : getLoadBalancerInstance (remote 0) id = Except.ok (some inst))
    (hstat : inst.loadBalancerInstanceStatus.code = status) :
    waitForLoadBalancerInstance remote id status timeout = WaitResult.ok := by
  cases timeout with
  | zero => exact absurd ht (Nat.lt_irrefl 0)
  | succ t =>
      have hb : (inst.loadBalancerInstanceStatus.code == status) = true := beq_iff_eq.mpr hstat
      simp [waitForLoadBalancerInstance, waitPollLoop, h0, hb]

/-- C5, witness: on a poll sequence whose first poll reports `USED` and whose
every later poll errors, the wait still returns success — the first poll alone
decided it. -/
theorem C5_witness :
    waitForLoadBalancerInstance usedThenErrorRemote "lb-1" "USED" 5 = WaitResult.ok :=
  C5_first_poll_target_is_immediate_success usedThenErrorRemote "lb-1" "USED" 5
    (mkInstance "lb-1" "USED") (by decide) rfl rfl

/-- C6: `deleteLoadBalancerInstance` succeeds whenever the delete call itself
does not error — here its response body is nil (`Except.ok none`), which is
tolerated — and a subsequent poll within the deadline reports the instance
absent (all earlier polls still finding it). -/
theorem C6_delete_tolerates_nil_response
    (remote : Nat → Except ApiError (List LoadBalancerInstance)) (id : String)
    (k : Nat) (hk : k < DefaultTimeout)
    (habs : getLoadBalancerInstance (remote k) id = Except.ok none)
    (hpre : ∀ j, j < k → ∃ inst, getLoadBalancerInstance (remote j) id = Except.ok (some inst)) :
    deleteLoadBalancerInstance (Except.ok none) remote id = WaitResult.ok :=
  deleteWaitLoop_ok_of_absent id DefaultTimeout k remote hk habs hpre

/-- C6, witness: delete with a nil response body over a poll sequence that
reports the instance twice and then absent succeeds. -/
theorem C6_witness :
    deleteLoadBalancerInstance (Except.ok none) twoThenGoneRemote "lb-1" = WaitResult.ok :=
  C6_delete_tolerates_nil_response twoThenGoneRemote "lb-1" 2 (by decide) rfl
    (fun j hj => ⟨mkInstance "lb-1" "USED", by interval_cases j <;> rfl⟩)

/-- C7: the delete-oriented wait takes no timeout argument; its deadline is the
process-wide `DefaultTimeout` for every call. If the instance is still found on
each of the first `DefaultTimeout` polls, the wait times out — whatever happens
at later polls (in particular polls before `DefaultCreateTimeout` would allow),
so the create timeout plays no role. -/
theorem C7_delete_wait_uses_default_timeout
    (remote : Nat → Except ApiError (List LoadBalancerInstance)) (id : String)
    (hfound : ∀ k, k < DefaultTimeout →
      ∃ inst, getLoadBalancerInstance (remote k) id = Except.ok (some inst)) :
    waitForDeleteLoadBalancerInstance remote id = WaitResult.timeout (timeoutMessage id) :=
  deleteWaitLoop_timeout_of_found id DefaultTimeout remote hfound

/-- C7, witness: on the poll sequence that is populated exactly for the first
`DefaultTimeout` polls and absent afterwards — so a wait with the longer
`DefaultCreateTimeout` deadline would have succeeded — the delete wait times
out. -/
theorem C7_witness :
    waitForDeleteLoadBalancerInstance lingeringRemote "lb-1" =
      WaitResult.timeout (timeoutMessage "lb-1") :=
  C7_delete_wait_uses_default_timeout lingeringRemote "lb-1"
    (fun k hk => ⟨mkInstance "lb-1" "USED", by
      unfold lingeringRemote
      rw [if_pos hk]
      rfl⟩)

/-- C8: in both wait loops, a poll error at iteration `k` (the earlier polls
having found the instance, with a non-target status for the create-oriented
loop) makes the wait return exactly that error; polls after `k` are universally
quantified, so no retry can occur. -/
theorem C8_poll_error_aborts_both_waits
    (remote : Nat → Except ApiError (List LoadBalancerInstance)) (id status : String)
    (timeout k : Nat) (e : ApiError) (hkc : k < timeout) (hkd : k < DefaultTimeout)
    (herr : getLoadBalancerInstance (remote k) id = Except.error e)
    (hpre : ∀ j, j < k → ∃ inst, getLoadBalancerInstance (remote j) id = Except.ok (some inst) ∧
      inst.loadBalancerInstanceStatus.code ≠ status) :
    waitForLoadBalancerInstance remote id status timeout = WaitResult.fail e ∧
    waitForDeleteLoadBalancerInstance remote id = WaitResult.fail e :=
  ⟨waitPollLoop_fail_of_error id status timeout k remote e hkc herr hpre,
   deleteWaitLoop_fail_of_error id DefaultTimeout k remote e hkd herr
     (fun j hj => (hpre j hj).imp (fun _ hp => hp.1))⟩

/-- C8, witness: on the poll sequence whose first poll errors and whose later
polls report absence (which would be success if retried), both waits return the
error of the first poll. -/
theorem C8_witness :
    waitForLoadBalancerInstance errorRemote "lb-1" "USED" 5 =
      WaitResult.fail { message := "api down" } ∧
    waitForDeleteLoadBalancerInstance errorRemote "lb-1" =
      WaitResult.fail { message := "api down" } :=
  C8_poll_error_aborts_both_waits errorRemote "lb-1" "USED" 5 0
    { message := "api down" } (by decide) (by decide) rfl
    (fun j hj => absurd hj (Nat.not_lt_zero j))

/-- C9: the unconditional indexings are undefined (modelled `none`, a Go panic)
exactly on the empty lists: `resp.LoadBalancerInstanceList[0]` in Create is
undefined iff the create response's instance list is empty, and
`getLoadBalancedServerInstanceList` is undefined iff some bound instance's
`ServerInstanceList` is empty — well-definedness requires those lists to be
non-empty. -/
theorem C9_unconditional_indexing_preconditions :
    (∀ list : List LoadBalancerInstance, createdLoadBalancerInstance list = none ↔ list = []) ∧
    (∀ l : List LoadBalancedServerInstance,
      getLoadBalancedServerInstanceList l = none ↔ ∃ inst ∈ l, inst.serverInstanceList = []) := by
  constructor
  · intro list
    cases list <;> simp [createdLoadBalancerInstance]
  · intro l
    induction l with
    | nil => simp [getLoadBalancedServerInstanceList]
    | cons inst rest ih =>
        have hstep : getLoadBalancedServerInstanceList (inst :: rest) = none ↔
            inst.serverInstanceList.head? = none ∨
              getLoadBalancedServerInstanceList rest = none := by
          cases hh : inst.serverInstanceList.head? with
          | none => simp [getLoadBalancedServerInstanceList, hh]
          | some s =>
              cases hr : getLoadBalancedServerInstanceList rest with
              | none => simp [getLoadBalancedServerInstanceList, hh, hr]
              | some tail => simp [getLoadBalancedServerInstanceList, hh, hr]
        rw [hstep, ih, List.head?_eq_none_iff]
        constructor
        · rintro (hnil | ⟨x, hx, hxnil⟩)
          · exact ⟨inst, List.mem_cons_self inst rest, hnil⟩
          · exact ⟨x, List.mem_cons_of_mem inst hx, hxnil⟩
        · rintro ⟨x, hx, hxnil⟩
          rcases List.mem_cons.mp hx with hx | hx
          · exact Or.inl (hx ▸ hxnil)
          · exact Or.inr ⟨x, hx, hxnil⟩

/-- C10: whenever Read finds the instance (and the bound-list projection is
well defined), the resulting state has `load_balanced_server_instance_list`
written in every case — to nil when the remote bound list is empty — while
`load_balancer_rule_list` keeps its previous value whenever the remote rule
list is empty: the two list fields are not cleared symmetrically. -/
theorem C10_read_list_fields_asymmetry (d : ResourceState) (lb : LoadBalancerInstance)
    (l : List String)
    (hl : getLoadBalancedServerInstanceList lb.loadBalancedServerInstanceList = some l) :
    ∃ d', resourceNcloudLoadBalancerRead (Except.ok (some lb)) d = some (Except.ok d') ∧
      d'.loadBalancedServerInstanceList =
        (if lb.loadBalancedServerInstanceList = [] then none else some l) ∧
      (lb.loadBalancerRuleList = [] → d'.loadBalancerRuleList = d.loadBalancerRuleList) := by
  rcases hsl : lb.loadBalancedServerInstanceList with _ | ⟨si, srest⟩ <;>
    rcases hrl : lb.loadBalancerRuleList with _ | ⟨r, rrest⟩ <;>
      rw [hsl] at hl <;>
        simp [resourceNcloudLoadBalancerRead, hsl, hrl, hl]

/-- C10, witness: on a remote instance with an empty rule list and one bound
instance, Read writes the bound-instance list and leaves the stored rule list
untouched. -/
theorem C10_witness :
    ∃ d', resourceNcloudLoadBalancerRead (Except.ok (some c10Instance)) c10State =
        some (Except.ok d') ∧
      d'.loadBalancedServerInstanceList =
        (if c10Instance.loadBalancedServerInstanceList = [] then none else some ["sv-1"]) ∧
      (c10Instance.loadBalancerRuleList = [] →
        d'.loadBalancerRuleList = c10State.loadBalancerRuleList) :=
  C10_read_list_fields_asymmetry c10State c10Instance ["sv-1"] rfl

/-- C9, witness: evaluating both indexing preconditions on concrete inputs —
an empty create-response list is undefined, and a bound instance with an empty
`ServerInstanceList` makes the projection undefined. -/
theorem C9_witness :
    createdLoadBalancerInstance [] = none ∧
    getLoadBalancedServerInstanceList [{ serverInstanceList := [] }] = none :=
  ⟨(C9_unconditional_indexing_preconditions.1 []).mpr rfl,
   (C9_unconditional_indexing_preconditions.2 [{ serverInstanceList := [] }]).mpr
     ⟨{ serverInstanceList := [] }, List.mem_singleton.mpr rfl, rfl⟩⟩
